import Mathlib

/-!
Verification development for the knowledge-graph core of the
`desci-ai-researchgraph` backend
(`backend/app/services/knowledge_graph_service.py`).

The Python service is embedded shallowly:

* database records (`ResearchPaper`, `Researcher`, `Keyword`, `Citation`)
  become plain Lean structures; the data store is a `List Paper` and the
  SQL query becomes filtering plus `take (max_nodes / 2)`;
* Python floats are modelled by `ℚ`; the irrational collaborators
  (`np.sqrt`, `np.cos`, `np.sin`, `np.pi`, Python `hash`, the random
  initial placement, the NetworkX 2-d spring layout, eigenvector
  centrality and the Louvain community detector) are parameters of the
  embedding, collected in `LayoutEnv` or passed explicitly;
* Python exceptions are modelled by `Except String` where the service
  lets them escape, and by the explicit handler translations where the
  service catches them;
* Python dicts keyed by node id are association lists with
  `dict_insert` / `dict_lookup` (insertion preserves the position of an
  existing key, lookups on a missing key are `KeyError`s where the
  source indexes directly).
-/

set_option maxRecDepth 4000

/-- JSON-like property values stored in node/edge property bags.  The
only array-valued property in the service is `research_domains`, a list
of strings, so the array constructor carries strings. -/
inductive JValue where
  | str (s : String)
  | num (q : ℚ)
  | bool (b : Bool)
  | null
  | arr (l : List String)
deriving DecidableEq

/-- Encode an optional string the way Python serializes `None`. -/
def jostr : Option String → JValue
  | some s => JValue.str s
  | none => JValue.null

/-- Encode an optional integer the way Python serializes `None`. -/
def joint : Option Int → JValue
  | some i => JValue.num i
  | none => JValue.null

/-- Encode an optional string list (`ARRAY(String)` column, nullable). -/
def jolist : Option (List String) → JValue
  | some l => JValue.arr l
  | none => JValue.null

/-- Node types of the knowledge graph (`NodeType` enum in the source). -/
inductive NodeType where
  | paper | author | concept | institution | journal | keyword
  | gene | protein | disease | drug | method
deriving DecidableEq

/-- The `value` of a `NodeType` enum member. -/
def NodeType.value : NodeType → String
  | .paper => "paper"
  | .author => "author"
  | .concept => "concept"
  | .institution => "institution"
  | .journal => "journal"
  | .keyword => "keyword"
  | .gene => "gene"
  | .protein => "protein"
  | .disease => "disease"
  | .drug => "drug"
  | .method => "method"

/-- Python `str.title()` applied to the `NodeType` values. -/
def NodeType.titled : NodeType → String
  | .paper => "Paper"
  | .author => "Author"
  | .concept => "Concept"
  | .institution => "Institution"
  | .journal => "Journal"
  | .keyword => "Keyword"
  | .gene => "Gene"
  | .protein => "Protein"
  | .disease => "Disease"
  | .drug => "Drug"
  | .method => "Method"

/-- Edge types of the knowledge graph (`EdgeType` enum in the source). -/
inductive EdgeType where
  | cites | authored_by | affiliated_with | published_in | related_to
  | studies | treats | interacts_with | uses_method
deriving DecidableEq

/-- The `value` of an `EdgeType` enum member. -/
def EdgeType.value : EdgeType → String
  | .cites => "cites"
  | .authored_by => "authored_by"
  | .affiliated_with => "affiliated_with"
  | .published_in => "published_in"
  | .related_to => "related_to"
  | .studies => "studies"
  | .treats => "treats"
  | .interacts_with => "interacts_with"
  | .uses_method => "uses_method"

/-- A 3-d coordinate record, the `{"x": .., "y": .., "z": ..}` dicts. -/
structure P3 where
  x : ℚ
  y : ℚ
  z : ℚ
deriving DecidableEq

/-- `GraphNode` dataclass of the source. -/
structure GraphNode where
  id : String
  label : String
  node_type : NodeType
  properties : List (String × JValue)
  position : Option P3 := none
  cluster_id : Option String := none
  importance_score : ℚ := 0
deriving DecidableEq

/-- `GraphEdge` dataclass of the source. -/
structure GraphEdge where
  source : String
  target : String
  edge_type : EdgeType
  weight : ℚ := 1
  properties : Option (List (String × JValue)) := none
deriving DecidableEq

/-- `GraphCluster` dataclass of the source. -/
structure GraphCluster where
  id : String
  name : String
  description : String
  nodes : List String
  center : P3
  color : String
  size : Nat
deriving DecidableEq

/-- A `Citation` row reached through `paper.citations_made`. -/
structure Citation where
  cited_paper_id : String
  context : Option String
  citation_type : Option String
deriving DecidableEq

/-- A `Researcher` row reached through `paper.authors`. -/
structure Researcher where
  id : String
  name : String
  institution : Option String
  orcid : Option String
  h_index : Option Int
  total_citations : Int
deriving DecidableEq

/-- A `Keyword` row reached through `paper.keywords`. -/
structure Keyword where
  id : String
  term : String
  category : Option String
  usage_count : Int
deriving DecidableEq

/-- A `ResearchPaper` row with its relationships eagerly loaded
(`selectinload` of authors, keywords and citations in the source). -/
structure Paper where
  id : String
  title : String
  abstract : Option String
  doi : Option String
  publication_date : Option String
  citation_count : Int
  research_domains : Option (List String)
  has_null_results : Bool
  authors : List Researcher
  keywords : List Keyword
  citations_made : List Citation
deriving DecidableEq

/-- Mutable collection state of `_collect_graph_data`: the `nodes` and
`edges` lists and the `node_ids` set (modelled as a list used only
through membership). -/
structure CState where
  nodes : List GraphNode
  edges : List GraphEdge
  node_ids : List String
deriving DecidableEq

/-- The paper node built for one `ResearchPaper` row. -/
def paper_node (p : Paper) : GraphNode :=
  { id := "paper_" ++ p.id
    label := p.title.take 100
    node_type := NodeType.paper
    properties :=
      [("title", JValue.str p.title),
       ("abstract", jostr p.abstract),
       ("doi", jostr p.doi),
       ("publication_date", jostr p.publication_date),
       ("citation_count", JValue.num p.citation_count),
       ("research_domains", jolist p.research_domains),
       ("has_null_results", JValue.bool p.has_null_results)] }

/-- One iteration of the `for author in paper.authors` loop: the author
node is admitted only if unseen and under budget, but the authorship
edge is appended unconditionally. -/
def author_step (max_nodes : Nat) (pid : String) (st : CState)
    (a : Researcher) : CState :=
  let author_id := "author_" ++ a.id
  let st1 :=
    if author_id ∉ st.node_ids ∧ st.nodes.length < max_nodes then
      { st with
        nodes := st.nodes ++
          [{ id := author_id
             label := a.name
             node_type := NodeType.author
             properties :=
               [("name", JValue.str a.name),
                ("institution", jostr a.institution),
                ("orcid", jostr a.orcid),
                ("h_index", joint a.h_index),
                ("total_citations", JValue.num a.total_citations)] }]
        node_ids := st.node_ids ++ [author_id] }
    else st
  { st1 with edges := st1.edges ++
      [{ source := author_id, target := pid,
         edge_type := EdgeType.authored_by, weight := 1 }] }

/-- One iteration of the `for keyword in paper.keywords` loop. -/
def keyword_step (max_nodes : Nat) (pid : String) (st : CState)
    (k : Keyword) : CState :=
  let keyword_id := "keyword_" ++ k.id
  let st1 :=
    if keyword_id ∉ st.node_ids ∧ st.nodes.length < max_nodes then
      { st with
        nodes := st.nodes ++
          [{ id := keyword_id
             label := k.term
             node_type := NodeType.keyword
             properties :=
               [("term", JValue.str k.term),
                ("category", jostr k.category),
                ("usage_count", JValue.num k.usage_count)] }]
        node_ids := st.node_ids ++ [keyword_id] }
    else st
  { st1 with edges := st1.edges ++
      [{ source := pid, target := keyword_id,
         edge_type := EdgeType.related_to, weight := 1/2 }] }

/-- Body of the `for paper in papers_data` loop for one admitted paper. -/
def process_paper (max_nodes : Nat) (st : CState) (p : Paper) : CState :=
  let node := paper_node p
  let st1 : CState :=
    { st with nodes := st.nodes ++ [node],
              node_ids := st.node_ids ++ [node.id] }
  let st2 := p.authors.foldl (author_step max_nodes node.id) st1
  p.keywords.foldl (keyword_step max_nodes node.id) st2

/-- The paper loop with its `break` when the budget is reached. -/
def paper_loop (max_nodes : Nat) : List Paper → CState → CState
  | [], st => st
  | p :: rest, st =>
    if st.nodes.length ≥ max_nodes then st
    else paper_loop max_nodes rest (process_paper max_nodes st p)

/-- The trailing citation loop: a `cites` edge is appended whenever the
cited paper id is among the admitted node ids; the citing side is not
checked. -/
def citation_edges (node_ids : List String) : List Paper → List GraphEdge
  | [] => []
  | p :: rest =>
    p.citations_made.filterMap (fun c =>
      if ("paper_" ++ c.cited_paper_id) ∈ node_ids then
        some { source := "paper_" ++ p.id,
               target := "paper_" ++ c.cited_paper_id,
               edge_type := EdgeType.cites, weight := 1,
               properties := some
                 [("context", jostr c.context),
                  ("citation_type", jostr c.citation_type)] }
      else none)
    ++ citation_edges node_ids rest

/-- `_collect_graph_data`.  The data store is the list of papers the
session would return; the `papers` filter mirrors `if papers:` (falsy
for `None` and for the empty list), the `authors` and `keywords`
parameters are accepted and ignored exactly as in the source, and the
query is limited to `max_nodes // 2` papers. -/
def collect_graph_data (store : List Paper) (papers : Option (List String))
    (_authors : Option (List String)) (_keywords : Option (List String))
    (max_nodes : Nat) : List GraphNode × List GraphEdge :=
  let q := match papers with
    | some ids => if ids = [] then store else store.filter (fun p => p.id ∈ ids)
    | none => store
  let papers_data := q.take (max_nodes / 2)
  let st := paper_loop max_nodes papers_data ⟨[], [], []⟩
  (st.nodes, st.edges ++ citation_edges st.node_ids papers_data)

/-- The undirected NetworkX graph `nx.Graph` built by
`_create_networkx_graph`: a vertex list (insertion-ordered, duplicates
collapse) and an edge list in which parallel edges collapse regardless
of orientation; self-loops are allowed, as in `nx.Graph`. -/
structure FinGraph where
  verts : List String
  edges : List (String × String)
deriving DecidableEq

/-- Whether two vertices are adjacent (either orientation). -/
def FinGraph.adjB (g : FinGraph) (a b : String) : Bool :=
  g.edges.any (fun e => (e.1 = a ∧ e.2 = b) ∨ (e.1 = b ∧ e.2 = a))

/-- `G.add_node`: appends the vertex unless already present. -/
def add_vert (vs : List String) (v : String) : List String :=
  if v ∈ vs then vs else vs ++ [v]

/-- `G.add_edge`: adds missing endpoints as vertices and records the
edge unless an edge between the same endpoints already exists. -/
def add_edge_nx (g : FinGraph) (s t : String) : FinGraph :=
  let vs := add_vert (add_vert g.verts s) t
  if g.edges.any (fun e => (e.1 = s ∧ e.2 = t) ∨ (e.1 = t ∧ e.2 = s)) then
    { verts := vs, edges := g.edges }
  else
    { verts := vs, edges := g.edges ++ [(s, t)] }

/-- `_create_networkx_graph`: nodes first (attributes are irrelevant to
the metrics below), then edges, whose missing endpoints become
vertices. -/
def create_networkx_graph (nodes : List GraphNode) (edges : List GraphEdge) :
    FinGraph :=
  let g0 : FinGraph :=
    { verts := nodes.foldl (fun vs n => add_vert vs n.id) [], edges := [] }
  edges.foldl (fun g e => add_edge_nx g e.source e.target) g0

/-- All duplicate-free walks from `s` to `t` that avoid `avoid`, with
fuel.  Called with fuel `g.verts.length` this enumerates every simple
path; shortest paths are simple, so shortest-path counts over this
enumeration agree with the NetworkX breadth-first counts. -/
def simple_paths_aux (g : FinGraph) (t : String) :
    Nat → String → List String → List (List String)
  | 0, s, _ => if s = t then [[s]] else []
  | fuel + 1, s, avoid =>
    if s = t then [[s]]
    else
      (g.verts.filter (fun u => g.adjB s u ∧ u ∉ avoid)).flatMap
        (fun u => (simple_paths_aux g t fuel u (u :: avoid)).map
          (fun p => s :: p))

/-- All simple paths from `s` to `t` in `g`. -/
def simple_paths (g : FinGraph) (s t : String) : List (List String) :=
  simple_paths_aux g t g.verts.length s [s]

/-- The shortest simple paths from `s` to `t` (empty when unreachable). -/
def shortest_paths (g : FinGraph) (s t : String) : List (List String) :=
  let ps := simple_paths g s t
  match (ps.map List.length).min? with
  | none => []
  | some d => ps.filter (fun p => p.length = d)

/-- Shortest-path distance (number of edges), `none` when unreachable. -/
def dist_opt (g : FinGraph) (s t : String) : Option Nat :=
  ((simple_paths g s t).map (fun p => p.length - 1)).min?

/-- Number of shortest `s`-`t` paths. -/
def sigma_st (g : FinGraph) (s t : String) : Nat :=
  (shortest_paths g s t).length

/-- Number of shortest `s`-`t` paths passing through `v`. -/
def sigma_st_via (g : FinGraph) (s t v : String) : Nat :=
  ((shortest_paths g s t).filter (fun p => v ∈ p)).length

/-- The pair dependency `σ_st(v) / σ_st` (zero when `t` is unreachable
from `s`, matching the Brandes accumulation that never visits it). -/
def pair_dep (g : FinGraph) (s t v : String) : ℚ :=
  (sigma_st_via g s t v : ℚ) / (sigma_st g s t : ℚ)

/-- All ordered pairs of distinct entries of `l`. -/
def off_diag_pairs (l : List String) : List (String × String) :=
  l.flatMap (fun s => (l.filter (fun t => t ≠ s)).map (fun t => (s, t)))

/-- Exact normalized betweenness centrality of an undirected graph as
computed by `nx.betweenness_centrality(G)`: the ordered-pair dependency
sum over sources and targets distinct from `v`, rescaled by
`1/((n-1)(n-2))` when `n > 2` and left raw otherwise. -/
def betweenness_exact (g : FinGraph) (v : String) : ℚ :=
  if 2 < g.verts.length then
    ((off_diag_pairs (g.verts.filter (fun u => u ≠ v))).map
      (fun p => pair_dep g p.1 p.2 v)).sum /
      (((g.verts.length : ℚ) - 1) * ((g.verts.length : ℚ) - 2))
  else
    ((off_diag_pairs (g.verts.filter (fun u => u ≠ v))).map
      (fun p => pair_dep g p.1 p.2 v)).sum

/-- Dependency of a single pivot source `s` on `v`, as accumulated by
Brandes' algorithm (endpoints excluded). -/
def source_dep (g : FinGraph) (s v : String) : ℚ :=
  if s = v then 0
  else ((g.verts.filter (fun t => t ≠ s ∧ t ≠ v)).map
    (fun t => pair_dep g s t v)).sum

/-- Pivot-sampled normalized betweenness centrality,
`nx.betweenness_centrality(G, k=len(pivots))` with the given random
pivot sample: the per-pivot dependencies rescaled by
`1/((n-1)(n-2)) * n/k` when `n > 2` and left raw otherwise. -/
def betweenness_sampled (g : FinGraph) (pivots : List String) (v : String) : ℚ :=
  let n := g.verts.length
  let raw := (pivots.map (fun s => source_dep g s v)).sum
  if 2 < n then
    raw / (((n : ℚ) - 1) * ((n : ℚ) - 2)) * ((n : ℚ) / (pivots.length : ℚ))
  else raw

/-- `G.degree(v)` in `nx.Graph`: the number of distinct neighbours,
plus two for a self-loop. -/
def degree_nx (g : FinGraph) (v : String) : Nat :=
  (g.verts.filter (fun u => u ≠ v ∧ g.adjB v u)).length +
    (if g.adjB v v then 2 else 0)

/-- `nx.degree_centrality`: degree over `n - 1`, with the documented
special case returning 1 for graphs with at most one node. -/
def degree_centrality (g : FinGraph) (v : String) : ℚ :=
  if g.verts.length ≤ 1 then 1
  else (degree_nx g v : ℚ) / ((g.verts.length : ℚ) - 1)

/-- `nx.degree_centrality` as a mapping over all vertices. -/
def degree_centrality_map (g : FinGraph) : List (String × ℚ) :=
  g.verts.map (fun v => (v, degree_centrality g v))

/-- Sampled betweenness as a mapping over all vertices. -/
def betweenness_sampled_map (g : FinGraph) (pivots : List String) :
    List (String × ℚ) :=
  g.verts.map (fun v => (v, betweenness_sampled g pivots v))

/-- `nx.closeness_centrality` (default `wf_improved=True`). -/
def closeness_centrality (g : FinGraph) (v : String) : ℚ :=
  let ds := g.verts.filterMap (fun u => dist_opt g v u)
  let r := ds.length
  let tot : ℚ := (ds.sum : ℚ)
  if 0 < tot ∧ 1 < g.verts.length then
    (((r : ℚ) - 1) / tot) * (((r : ℚ) - 1) / ((g.verts.length : ℚ) - 1))
  else 0

/-- `nx.is_connected` minus its null-graph guard (handled at the call
site): every vertex reaches every vertex. -/
def connected_b (g : FinGraph) : Bool :=
  g.verts.all (fun u => g.verts.all (fun w => (dist_opt g u w).isSome))

/-- `nx.number_connected_components`: one representative per component. -/
def components_count (g : FinGraph) : Nat :=
  (g.verts.foldl
    (fun reps v =>
      if reps.any (fun r => (dist_opt g r v).isSome) then reps
      else reps ++ [v])
    []).length

/-- `nx.diameter` on a connected graph: the largest pairwise distance. -/
def diameter_nx (g : FinGraph) : Option Nat :=
  (g.verts.flatMap (fun u => g.verts.filterMap (fun w => dist_opt g u w))).max?

/-- `nx.average_shortest_path_length` on a connected graph. -/
def average_path_length (g : FinGraph) : ℚ :=
  let n := g.verts.length
  if n = 1 then 0
  else
    let tot := ((off_diag_pairs g.verts).filterMap
      (fun p => dist_opt g p.1 p.2)).sum
    (tot : ℚ) / ((n : ℚ) * ((n : ℚ) - 1))

/-- Distinct neighbours of `v` (self excluded). -/
def neighbors_nx (g : FinGraph) (v : String) : List String :=
  g.verts.filter (fun u => u ≠ v ∧ g.adjB v u)

/-- All unordered pairs of a list, each once. -/
def pairs_of {α : Type} : List α → List (α × α)
  | [] => []
  | x :: xs => xs.map (fun y => (x, y)) ++ pairs_of xs

/-- Number of triangles through `v`. -/
def triangles_at (g : FinGraph) (v : String) : Nat :=
  ((pairs_of (neighbors_nx g v)).filter (fun p => g.adjB p.1 p.2)).length

/-- `nx.clustering` for one vertex of a loop-free simple graph. -/
def clustering_coef (g : FinGraph) (v : String) : ℚ :=
  let d := (neighbors_nx g v).length
  if d < 2 then 0
  else (2 * (triangles_at g v : ℚ)) / ((d : ℚ) * ((d : ℚ) - 1))

/-- `nx.average_clustering` for a non-empty graph. -/
def average_clustering (g : FinGraph) : ℚ :=
  if g.verts.length = 0 then 0
  else ((g.verts.map (clustering_coef g)).sum) / (g.verts.length : ℚ)

/-- `nx.density` for an undirected graph. -/
def density_nx (g : FinGraph) : ℚ :=
  let n := g.verts.length
  let m := g.edges.length
  if m = 0 ∨ n ≤ 1 then 0
  else 2 * (m : ℚ) / ((n : ℚ) * ((n : ℚ) - 1))

/-- The eigenvector-centrality collaborator
(`nx.eigenvector_centrality(G, max_iter=100)` — a float power
iteration, so it stays a parameter; it may fail to converge, hence the
`Except`). -/
abbrev EigFn : Type := FinGraph → Except String (List (String × ℚ))

/-- The `centrality_measures` sub-dict of the analysis result. -/
structure CentralityMeasures where
  degree : List (String × ℚ)
  betweenness : List (String × ℚ)
  closeness : List (String × ℚ)
  eigenvector : List (String × ℚ)
deriving DecidableEq

/-- The analysis dict built by `_analyze_graph_structure` when no
exception interrupts it.  `centrality_measures = none` models the empty
`{}` left in place for graphs above 500 nodes. -/
structure Analysis where
  node_count : Nat
  edge_count : Nat
  density : ℚ
  is_connected : Bool
  connected_components : Nat
  average_clustering : ℚ
  diameter : Option Nat
  average_path_length : Option ℚ
  centrality_measures : Option CentralityMeasures
deriving DecidableEq

/-- What `_analyze_graph_structure` returns: either the full analysis
dict, or the `{"error": str(e)}` dict produced by its handler. -/
inductive AnalyzeResult where
  | full (a : Analysis)
  | errorOnly (msg : String)
deriving DecidableEq

/-- The body of the `try:` block of `_analyze_graph_structure`, in the
evaluation order of the source: `nx.is_connected` raises on the null
graph, and `nx.betweenness_centrality(graph, k=100)` raises whenever
the 100-pivot sample exceeds the population, i.e. for every graph with
fewer than 100 nodes. -/
def analyze_core (eig : EigFn) (pivots : List String) (g : FinGraph) :
    Except String Analysis := do
  let n := g.verts.length
  let dens := density_nx g
  let isConn ←
    if n = 0 then Except.error ("Connectivity is undefined for the null graph.")
    else Except.ok (connected_b g)
  let comps := components_count g
  let avgc := average_clustering g
  let diam := if isConn then diameter_nx g else none
  let apl := if isConn then some (average_path_length g) else none
  let cm ←
    if n ≤ 500 then do
      let deg := degree_centrality_map g
      let bet ←
        if n < 100 then
          Except.error ("Sample larger than population or is negative")
        else Except.ok (betweenness_sampled_map g pivots)
      let clo := g.verts.map (fun v => (v, closeness_centrality g v))
      let eigv ← eig g
      Except.ok (some (CentralityMeasures.mk deg bet clo eigv))
    else Except.ok none
  Except.ok (Analysis.mk n g.edges.length dens isConn comps avgc diam apl cm)

/-- `_analyze_graph_structure`: the `try`/`except` wrapper — any error
becomes the `{"error": str(e)}` dict, discarding everything else. -/
def analyze_graph_structure (eig : EigFn) (pivots : List String)
    (g : FinGraph) : AnalyzeResult :=
  match analyze_core eig pivots g with
  | Except.ok a => AnalyzeResult.full a
  | Except.error e => AnalyzeResult.errorOnly e

/-- Positions dict: node id to 3-d coordinates. -/
abbrev Positions : Type := List (String × P3)

/-- Accumulated forces dict (`defaultdict` in the source: absent keys
read as the zero vector). -/
abbrev Forces : Type := List (String × P3)

/-- Python dict assignment `d[k] = v`: replaces in place, else appends. -/
def dict_insert {α : Type} : List (String × α) → String → α → List (String × α)
  | [], k, v => [(k, v)]
  | (k', v') :: rest, k, v =>
    if k' = k then (k', v) :: rest else (k', v') :: dict_insert rest k v

/-- Python dict lookup `d.get(k)` / `d[k]`. -/
def dict_lookup {α : Type} : List (String × α) → String → Option α
  | [], _ => none
  | (k', v') :: rest, k => if k' = k then some v' else dict_lookup rest k

/-- The real-number, random and external collaborators of the layout
engine, bundled: the random initial placement `np.random.uniform`, the
float functions `np.sqrt`, `np.cos`, `np.sin`, the constant `np.pi`,
Python's string `hash`, and `nx.spring_layout(G, k=3, iterations=50)`
(given the spring graph's vertex and edge lists). -/
structure LayoutEnv where
  init : String → P3
  sqrtQ : ℚ → ℚ
  cosQ : ℚ → ℚ
  sinQ : ℚ → ℚ
  piQ : ℚ
  hashS : String → Int
  spring2d : List String → List (String × String) → List (String × (ℚ × ℚ))

/-- Initial random placement of `_force_directed_layout`. -/
def init_positions (env : LayoutEnv) (nodes : List GraphNode) : Positions :=
  nodes.foldl (fun d n => dict_insert d n.id (env.init n.id)) []

/-- Read `forces[id]` from the `defaultdict`. -/
def force_at (f : Forces) (id : String) : P3 :=
  (dict_lookup f id).getD (P3.mk 0 0 0)

/-- Add a force vector onto `forces[id]`. -/
def add_force (f : Forces) (id : String) (d : P3) : Forces :=
  let c := force_at f id
  dict_insert f id (P3.mk (c.x + d.x) (c.y + d.y) (c.z + d.z))

/-- The repulsion pass over all unordered node pairs (`k*k/distance`
with the `0.1` minimum-distance clamp).  A dict access
`positions[node.id]` on a missing key is a `KeyError`. -/
def repulsion_pass (env : LayoutEnv) (pos : Positions) :
    List (GraphNode × GraphNode) → Forces → Except String Forces
  | [], acc => Except.ok acc
  | (n1, n2) :: rest, acc =>
    match dict_lookup pos n1.id with
    | none => Except.error ("KeyError: " ++ n1.id)
    | some p1 =>
      match dict_lookup pos n2.id with
      | none => Except.error ("KeyError: " ++ n2.id)
      | some p2 =>
        let dx := p1.x - p2.x
        let dy := p1.y - p2.y
        let dz := p1.z - p2.z
        let distance := max (env.sqrtQ (dx*dx + dy*dy + dz*dz)) (1/10)
        let force := 50 * 50 / distance
        let fx := force * dx / distance
        let fy := force * dy / distance
        let fz := force * dz / distance
        let acc1 := add_force acc n1.id (P3.mk fx fy fz)
        let acc2 := add_force acc1 n2.id (P3.mk (-fx) (-fy) (-fz))
        repulsion_pass env pos rest acc2

/-- The attraction pass over all edges (`distance²/k` scaled by the edge
weight).  `positions[edge.source]` on a missing key — a dangling edge —
is a `KeyError`. -/
def attraction_pass (env : LayoutEnv) (pos : Positions) :
    List GraphEdge → Forces → Except String Forces
  | [], acc => Except.ok acc
  | e :: rest, acc =>
    match dict_lookup pos e.source with
    | none => Except.error ("KeyError: " ++ e.source)
    | some p1 =>
      match dict_lookup pos e.target with
      | none => Except.error ("KeyError: " ++ e.target)
      | some p2 =>
        let dx := p2.x - p1.x
        let dy := p2.y - p1.y
        let dz := p2.z - p1.z
        let distance := max (env.sqrtQ (dx*dx + dy*dy + dz*dz)) (1/10)
        let force := distance * distance / 50 * e.weight
        let fx := force * dx / distance
        let fy := force * dy / distance
        let fz := force * dz / distance
        let acc1 := add_force acc e.source (P3.mk fx fy fz)
        let acc2 := add_force acc1 e.target (P3.mk (-fx) (-fy) (-fz))
        attraction_pass env pos rest acc2

/-- The displacement pass: each node moves along its normalized net
force, capped by the temperature; nothing moves when the magnitude is
not positive. -/
def apply_pass (env : LayoutEnv) (forces : Forces) (temp : ℚ) :
    List GraphNode → Positions → Except String Positions
  | [], pos => Except.ok pos
  | node :: rest, pos =>
    let f := force_at forces node.id
    let mag := env.sqrtQ (f.x*f.x + f.y*f.y + f.z*f.z)
    if 0 < mag then
      match dict_lookup pos node.id with
      | none => Except.error ("KeyError: " ++ node.id)
      | some p =>
        let disp := min mag temp
        apply_pass env forces temp rest
          (dict_insert pos node.id
            (P3.mk (p.x + disp * f.x / mag) (p.y + disp * f.y / mag)
              (p.z + disp * f.z / mag)))
    else apply_pass env forces temp rest pos

/-- One iteration of the force-directed simulation, cooling by `0.95`. -/
def step_fd (env : LayoutEnv) (nodes : List GraphNode)
    (edges : List GraphEdge) (st : Positions × ℚ) :
    Except String (Positions × ℚ) :=
  match repulsion_pass env st.1 (pairs_of nodes) [] with
  | Except.error e => Except.error e
  | Except.ok f1 =>
    match attraction_pass env st.1 edges f1 with
    | Except.error e => Except.error e
    | Except.ok f2 =>
      match apply_pass env f2 st.2 nodes st.1 with
      | Except.error e => Except.error e
      | Except.ok pos => Except.ok (pos, st.2 * (19/20))

/-- The `for iteration in range(iterations)` loop. -/
def run_iterations (env : LayoutEnv) (nodes : List GraphNode)
    (edges : List GraphEdge) : Nat → Positions × ℚ →
    Except String (Positions × ℚ)
  | 0, st => Except.ok st
  | k + 1, st =>
    match step_fd env nodes edges st with
    | Except.error e => Except.error e
    | Except.ok st1 => run_iterations env nodes edges k st1

/-- `_force_directed_layout`: 100 iterations starting from the random
placement at temperature 100. -/
def force_directed_layout (env : LayoutEnv) (nodes : List GraphNode)
    (edges : List GraphEdge) : Except String Positions :=
  match run_iterations env nodes edges 100 (init_positions env nodes, 100) with
  | Except.error e => Except.error e
  | Except.ok st => Except.ok st.1

/-- The fixed layer index of each node type in `_hierarchical_layout`
(`layer_assignments.get(node_type, 0)`). -/
def layer_of : NodeType → Nat
  | NodeType.paper => 0
  | NodeType.author => 1
  | NodeType.keyword => 2
  | NodeType.concept => 2
  | NodeType.institution => 3
  | _ => 0

/-- Group the nodes by type in first-appearance order (the iteration
order of the `defaultdict(list)` in the source). -/
def group_by_type (nodes : List GraphNode) :
    List (NodeType × List GraphNode) :=
  nodes.foldl
    (fun gs n =>
      if gs.any (fun g => g.1 = n.node_type) then
        gs.map (fun g => if g.1 = n.node_type then (g.1, g.2 ++ [n]) else g)
      else gs ++ [(n.node_type, [n])])
    []

/-- Place one layer of `_hierarchical_layout` on its circle. -/
def place_layer (env : LayoutEnv) (pos : Positions)
    (grp : NodeType × List GraphNode) : Positions :=
  let y : ℚ := (layer_of grp.1 : ℚ) * 100
  match grp.2 with
  | [n] => dict_insert pos n.id (P3.mk 0 y 0)
  | l =>
    let num : ℚ := (l.length : ℚ)
    (l.enum).foldl
      (fun p ni =>
        let angle := 2 * env.piQ * (ni.1 : ℚ) / num
        let radius : ℚ := 50 + num * 5
        dict_insert p ni.2.id
          (P3.mk (radius * env.cosQ angle) y (radius * env.sinQ angle)))
      pos

/-- `_hierarchical_layout`. -/
def hierarchical_layout (env : LayoutEnv) (nodes : List GraphNode)
    (_edges : List GraphEdge) : Positions :=
  (group_by_type nodes).foldl (place_layer env) []

/-- Stable insertion keeping earlier elements first among equal keys
(Python's stable `sorted(..., reverse=True)` on the importance score). -/
def insert_desc (x : GraphNode) : List GraphNode → List GraphNode
  | [] => [x]
  | y :: ys =>
    if x.importance_score ≥ y.importance_score then x :: y :: ys
    else y :: insert_desc x ys

/-- Stable sort by descending importance score. -/
def sort_desc : List GraphNode → List GraphNode
  | [] => []
  | x :: xs => insert_desc x (sort_desc xs)

/-- Chunk into circles of at most 12 nodes (fuelled by the list length,
which bounds the number of circles). -/
def chunk12 : Nat → List GraphNode → List (List GraphNode)
  | 0, _ => []
  | _, [] => []
  | fuel + 1, l => l.take 12 :: chunk12 fuel (l.drop 12)

/-- Place one concentric circle of `_circular_layout`. -/
def place_circle (env : LayoutEnv) (pos : Positions)
    (c : Nat × List GraphNode) : Positions :=
  let radius : ℚ := 50 + (c.1 : ℚ) * 80
  let num : ℚ := (c.2.length : ℚ)
  (c.2.enum).foldl
    (fun p ni =>
      let angle := 2 * env.piQ * (ni.1 : ℚ) / num
      dict_insert p ni.2.id
        (P3.mk (radius * env.cosQ angle) ((c.1 : ℚ) * 20)
          (radius * env.sinQ angle)))
    pos

/-- `_circular_layout`. -/
def circular_layout (env : LayoutEnv) (nodes : List GraphNode)
    (_edges : List GraphEdge) : Positions :=
  if nodes.length = 0 then []
  else
    let sorted_nodes := sort_desc nodes
    let circles := chunk12 sorted_nodes.length sorted_nodes
    (circles.enum).foldl (place_circle env) []

/-- `_spring_layout`: the 2-d NetworkX spring layout (collaborator) is
scaled by 200 and given a z band from the hash of the node type. -/
def spring_layout (env : LayoutEnv) (nodes : List GraphNode)
    (edges : List GraphEdge) : Positions :=
  let overts := nodes.foldl (fun vs n => add_vert vs n.id) []
  let g := edges.foldl (fun g e => add_edge_nx g e.source e.target)
    (FinGraph.mk overts [])
  let pos2d := env.spring2d g.verts (g.edges)
  nodes.foldl
    (fun p node =>
      match dict_lookup pos2d node.id with
      | some xy =>
        let z : ℚ := ((env.hashS node.node_type.value % 100) - 50 : Int)
        dict_insert p node.id (P3.mk (xy.1 * 200) (xy.2 * 200) z)
      | none => p)
    []

/-- `_generate_3d_layout`: dispatch by algorithm name; unknown names
fall back to force-directed. -/
def generate_3d_layout (env : LayoutEnv) (nodes : List GraphNode)
    (edges : List GraphEdge) : String → Except String Positions
  | "hierarchical" => Except.ok (hierarchical_layout env nodes edges)
  | "circular" => Except.ok (circular_layout env nodes edges)
  | "spring" => Except.ok (spring_layout env nodes edges)
  | _ => force_directed_layout env nodes edges

/-- The fixed 7-colour palette of `_detect_research_clusters`. -/
def cluster_colors : List String :=
  ["#FF6B6B", "#4ECDC4", "#45B7D1", "#96CEB4", "#FFEAA7", "#DDA0DD",
   "#98D8C8"]

/-- `max(set(node_types), key=node_types.count)`: `none` on the empty
list (where Python raises `ValueError`); ties resolve to the first
maximal candidate in first-appearance order (a determinization of
CPython's unspecified set iteration order). -/
def most_common_type (ts : List NodeType) : Option NodeType :=
  (ts.dedup).foldl
    (fun best c =>
      match best with
      | none => some c
      | some b =>
        if ts.countP (fun x => x = c) > ts.countP (fun x => x = b) then some c
        else some b)
    none

/-- The `for i, community in enumerate(communities)` loop; `none`
models an exception escaping to the handler, which discards every
cluster built so far (the only raise site is the `max` over the types
of an empty `community_nodes` list). -/
def detect_go (nodes : List GraphNode) :
    Nat → List (List String) → Option (List GraphCluster)
  | _, [] => some []
  | i, c :: rest =>
    if c.length < 2 then detect_go nodes (i + 1) rest
    else
      match most_common_type
          ((nodes.filter (fun n => n.id ∈ c)).map (fun n => n.node_type)) with
      | none => none
      | some mct =>
        match detect_go nodes (i + 1) rest with
        | none => none
        | some rest0 =>
          some
            ({ id := "cluster_" ++ toString i
               name := mct.titled ++ " Cluster " ++ toString (i + 1)
               description := "Research cluster with " ++
                 toString c.length ++ " related entities"
               nodes := c
               center := P3.mk 0 0 0
               color :=
                 (cluster_colors.get? (i % cluster_colors.length)).getD ("")
               size := c.length } :: rest0)

/-- `_detect_research_clusters`, parametric in the Louvain communities
(`nx_comm.louvain_communities(graph)` is an external randomized
collaborator); its `except` handler returns the empty cluster list. -/
def detect_research_clusters (communities : List (List String))
    (nodes : List GraphNode) : List GraphCluster :=
  (detect_go nodes 0 communities).getD []

/-- `_calculate_node_importance`: degree centrality and betweenness
(exact up to 500 nodes, 100-pivot sampled above) combined as
`0.6 * degree + 0.4 * betweenness`.  Nothing in either branch raises,
so the `except` handler returning `{}` is unreachable. -/
def calculate_node_importance (g : FinGraph) (pivots : List String) :
    List (String × ℚ) :=
  g.verts.map (fun v =>
    (v, 3/5 * degree_centrality g v +
        2/5 * (if 500 < g.verts.length then betweenness_sampled g pivots v
               else betweenness_exact g v)))

/-- `_find_node_cluster`. -/
def find_node_cluster (node_id : String) :
    List GraphCluster → Option String
  | [] => none
  | c :: rest =>
    if node_id ∈ c.nodes then some c.id else find_node_cluster node_id rest

/-- The serialized node dict of `_serialize_node`. -/
structure SNode where
  id : String
  label : String
  type : String
  properties : List (String × JValue)
  position : Option P3
  cluster : Option String
  importance : ℚ
deriving DecidableEq

/-- The serialized edge dict of `_serialize_edge`. -/
structure SEdge where
  source : String
  target : String
  type : String
  weight : ℚ
  properties : List (String × JValue)
deriving DecidableEq

/-- The serialized cluster dict of `_serialize_cluster`. -/
structure SCluster where
  id : String
  name : String
  description : String
  nodes : List String
  center : P3
  color : String
  size : Nat
deriving DecidableEq

/-- `_serialize_node`. -/
def serialize_node (n : GraphNode) : SNode :=
  { id := n.id, label := n.label, type := n.node_type.value,
    properties := n.properties, position := n.position,
    cluster := n.cluster_id, importance := n.importance_score }

/-- `_serialize_edge` (`edge.properties or {}`). -/
def serialize_edge (e : GraphEdge) : SEdge :=
  { source := e.source, target := e.target, type := e.edge_type.value,
    weight := e.weight, properties := e.properties.getD [] }

/-- `_serialize_cluster`. -/
def serialize_cluster (c : GraphCluster) : SCluster :=
  { id := c.id, name := c.name, description := c.description,
    nodes := c.nodes, center := c.center, color := c.color,
    size := c.size }

/-- The `metadata` dict of the response. -/
structure Metadata where
  created_by : String
  created_at : String
  node_count : Nat
  edge_count : Nat
  cluster_count : Nat
deriving DecidableEq

/-- The complete `graph_data` response of
`build_research_knowledge_graph`. -/
structure GraphData where
  id : String
  metadata : Metadata
  nodes : List SNode
  edges : List SEdge
  clusters : List SCluster
  analysis : AnalyzeResult
  layout_algorithm : String
deriving DecidableEq

/-- Outcome of the persistence sink (`session.add` + `commit`): either
a database-assigned id for the saved row, or a failure. -/
inductive SaveOutcome where
  | ok (assigned_id : String)
  | fail (msg : String)
deriving DecidableEq

/-- `_save_knowledge_graph`: on success the response id is overwritten
with the database id; on failure the exception is caught, the session
rolled back, and the graph data returned unchanged — nothing is
re-raised. -/
def save_knowledge_graph (sink : SaveOutcome) (gd : GraphData) : GraphData :=
  match sink with
  | SaveOutcome.ok assigned_id => { gd with id := assigned_id }
  | SaveOutcome.fail _ => gd

/-- The enrichment collaborators of one build: the layout environment,
eigenvector centrality, the two independent pivot samples (analysis and
importance), the Louvain detector and the persistence sink. -/
structure BuildEnv where
  layout : LayoutEnv
  eig : EigFn
  pivotsA : List String
  pivotsI : List String
  louvain : FinGraph → List (List String)
  sink : SaveOutcome
  now : String

/-- Response assembly: the per-node write-back of position
(`layout.get(node.id, origin)`), importance
(`importance_scores.get(node.id, 0.0)`) and cluster id, followed by the
`graph_data` dict construction. -/
def assemble_graph_data (env : BuildEnv) (user_id : String)
    (nodes : List GraphNode) (edges : List GraphEdge)
    (layout : Positions) : GraphData :=
  let nx_graph := create_networkx_graph nodes edges
  let analysis := analyze_graph_structure env.eig env.pivotsA nx_graph
  let clusters := detect_research_clusters (env.louvain nx_graph) nodes
  let importance_scores := calculate_node_importance nx_graph env.pivotsI
  let updated := nodes.map (fun node =>
    { node with
      position := some ((dict_lookup layout node.id).getD (P3.mk 0 0 0))
      importance_score := (dict_lookup importance_scores node.id).getD 0
      cluster_id := find_node_cluster node.id clusters })
  { id := "kg_" ++ user_id ++ "_" ++ env.now
    metadata :=
      { created_by := user_id, created_at := env.now,
        node_count := nodes.length, edge_count := edges.length,
        cluster_count := clusters.length }
    nodes := updated.map serialize_node
    edges := edges.map serialize_edge
    clusters := clusters.map serialize_cluster
    analysis := analysis
    layout_algorithm := "force_directed" }

/-- `build_research_knowledge_graph`.  The only uncaught exception
source between collection and response assembly is the layout call (the
analyzer, detector and scorer all catch their own errors, and the
collection query is pure data access here), so the function is
`Except`-valued with exactly that failure path; the final sink write
never raises (its handler swallows the failure). -/
def build_research_knowledge_graph (env : BuildEnv) (user_id : String)
    (store : List Paper) (papers : Option (List String))
    (authors : Option (List String)) (keywords : Option (List String))
    (max_nodes : Nat) : Except String GraphData :=
  let nd := collect_graph_data store papers authors keywords max_nodes
  match generate_3d_layout env.layout nd.1 nd.2 ("force_directed") with
  | Except.error e => Except.error e
  | Except.ok layout =>
    Except.ok (save_knowledge_graph env.sink
      (assemble_graph_data env user_id nd.1 nd.2 layout))

/-- A trivial eigenvector-centrality collaborator used for concrete
runs (the value is irrelevant on every path exercised: the betweenness
sampling error fires first on small graphs). -/
def eig_trivial : EigFn := fun _ => Except.ok []

/-- Whether an analysis result still carries the computed counts (the
claim under test says partial results survive an internal error). -/
def has_counts : AnalyzeResult → Bool
  | AnalyzeResult.full _ => true
  | AnalyzeResult.errorOnly _ => false

/-- A concrete layout environment for closed runs: zero sqrt (so the
all-zero initial placement never moves), trivial trig, hash and spring
collaborators. -/
def env_zero : LayoutEnv :=
  { init := fun _ => P3.mk 0 0 0, sqrtQ := fun _ => 0,
    cosQ := fun _ => 1, sinQ := fun _ => 0, piQ := 157/50,
    hashS := fun _ => 0, spring2d := fun _ _ => [] }

/-- An edge whose endpoints are not nodes (the shape the builder emits
after budget exhaustion). -/
def edge_dangling : GraphEdge :=
  { source := "author_ghost", target := "paper_ghost",
    edge_type := EdgeType.authored_by }

/-- A single-vertex NetworkX graph. -/
def g_single : FinGraph := FinGraph.mk ["paper_solo"] []

/-- The three paper nodes P1, P2, P3 of the citation-chain scenario. -/
def c8_nodes : List GraphNode :=
  [{ id := "paper_1", label := "P1", node_type := NodeType.paper,
     properties := [] },
   { id := "paper_2", label := "P2", node_type := NodeType.paper,
     properties := [] },
   { id := "paper_3", label := "P3", node_type := NodeType.paper,
     properties := [] }]

/-- The two citation edges P1→P2 and P2→P3. -/
def c8_edges : List GraphEdge :=
  [{ source := "paper_1", target := "paper_2",
     edge_type := EdgeType.cites },
   { source := "paper_2", target := "paper_3",
     edge_type := EdgeType.cites }]

/-- The NetworkX graph of the citation-chain scenario. -/
def c8_graph : FinGraph := create_networkx_graph c8_nodes c8_edges

/-- Nodes of the self-citation scenario: a paper and its author. -/
def c5_nodes : List GraphNode :=
  [{ id := "paper_1", label := "P1", node_type := NodeType.paper,
     properties := [] },
   { id := "author_1", label := "A1", node_type := NodeType.author,
     properties := [] }]

/-- Edges of the self-citation scenario: an authorship edge plus the
self-citation `paper_1 → paper_1` that `_collect_graph_data` emits when
a citation row has `cited_paper_id == citing_paper_id`. -/
def c5_edges : List GraphEdge :=
  [{ source := "author_1", target := "paper_1",
     edge_type := EdgeType.authored_by },
   { source := "paper_1", target := "paper_1",
     edge_type := EdgeType.cites }]

/-- The NetworkX graph with a self-loop at `paper_1`. -/
def g_selfloop : FinGraph := create_networkx_graph c5_nodes c5_edges

/-- Whether a graph has no self-loops. -/
def loop_free (g : FinGraph) : Bool :=
  g.edges.all (fun e => e.1 ≠ e.2)

/-- A build environment with a succeeding persistence sink. -/
def build_env_ok : BuildEnv :=
  { layout := env_zero, eig := eig_trivial, pivotsA := [], pivotsI := [],
    louvain := fun _ => [], sink := SaveOutcome.ok ("7"), now := "t0" }

/-- A build environment whose persistence sink fails. -/
def build_env_fail : BuildEnv :=
  { layout := env_zero, eig := eig_trivial, pivotsA := [], pivotsI := [],
    louvain := fun _ => [], sink := SaveOutcome.fail ("db down"),
    now := "20240101" }

/-- Fixture: first author of the two-author paper. -/
def researcher_a1 : Researcher :=
  { id := "a1", name := "Alice", institution := none, orcid := none,
    h_index := none, total_citations := 0 }

/-- Fixture: second author of the two-author paper. -/
def researcher_a2 : Researcher :=
  { id := "a2", name := "Bob", institution := none, orcid := none,
    h_index := none, total_citations := 0 }

/-- Fixture: a single paper with two authors and nothing else. -/
def paper_two_authors : Paper :=
  { id := "p1", title := "Two Author Paper", abstract := none, doi := none,
    publication_date := none, citation_count := 0, research_domains := none,
    has_null_results := false, authors := [researcher_a1, researcher_a2],
    keywords := [], citations_made := [] }

/-- The nodes collected from the two-author store at budget 2. -/
def c3_nodes : List GraphNode :=
  (collect_graph_data [paper_two_authors] none none none 2).1

/-- The edges collected from the two-author store at budget 2. -/
def c3_edges : List GraphEdge :=
  (collect_graph_data [paper_two_authors] none none none 2).2

/-- Fixture: a keyword row. -/
def keyword_ml : Keyword :=
  { id := "k1", term := "machine learning", category := none,
    usage_count := 0 }

/-- Fixture: a paper with one author and one keyword. -/
def paper_author_keyword : Paper :=
  { id := "p2", title := "Keyword Paper", abstract := none, doi := none,
    publication_date := none, citation_count := 0, research_domains := none,
    has_null_results := false, authors := [researcher_a1],
    keywords := [keyword_ml], citations_made := [] }

/-- Fixture: a paper with a single author. -/
def paper_single_author : Paper :=
  { id := "p3", title := "Solo Paper", abstract := none, doi := none,
    publication_date := none, citation_count := 0, research_domains := none,
    has_null_results := false, authors := [researcher_a2],
    keywords := [], citations_made := [] }

/-- A concrete successful build over the one-author one-keyword store
with a budget of 10 (no node is skipped, so no edge dangles). -/
def c1_build : Except String GraphData :=
  build_research_knowledge_graph build_env_ok ("user") [paper_author_keyword]
    none none none 10

/-- A concrete successful build over the two-author store, budget 10. -/
def c10_build : Except String GraphData :=
  build_research_knowledge_graph build_env_ok ("u2") [paper_two_authors]
    none none none 10

/-- A concrete build whose persistence sink fails. -/
def c4_build_fail : Except String GraphData :=
  build_research_knowledge_graph build_env_fail ("carol") [paper_single_author]
    none none none 10

/-- Two paper nodes for the cluster-detection witness. -/
def c6_nodes : List GraphNode :=
  [{ id := "paper_x", label := "PX", node_type := NodeType.paper,
     properties := [] },
   { id := "paper_y", label := "PY", node_type := NodeType.paper,
     properties := [] }]

/-- The NetworkX graph of the cluster-detection witness. -/
def c6_graph : FinGraph :=
  create_networkx_graph c6_nodes
    [{ source := "paper_x", target := "paper_y",
       edge_type := EdgeType.cites }]

/-- A Louvain result partitioning the witness graph. -/
def c6_communities : List (List String) := [["paper_x", "paper_y"]]

theorem author_step_nodes_le (mx : Nat) (pid : String) (st : CState)
    (a : Researcher) (h : st.nodes.length ≤ mx) :
    (author_step mx pid st a).nodes.length ≤ mx := by
  unfold author_step
  dsimp only
  split
  · rename_i hc
    simp only [List.length_append, List.length_cons, List.length_nil]
    omega
  · exact h

theorem keyword_step_nodes_le (mx : Nat) (pid : String) (st : CState)
    (k : Keyword) (h : st.nodes.length ≤ mx) :
    (keyword_step mx pid st k).nodes.length ≤ mx := by
  unfold keyword_step
  dsimp only
  split
  · rename_i hc
    simp only [List.length_append, List.length_cons, List.length_nil]
    omega
  · exact h

theorem foldl_author_step_nodes_le (mx : Nat) (pid : String)
    (as : List Researcher) (st : CState) (h : st.nodes.length ≤ mx) :
    (as.foldl (author_step mx pid) st).nodes.length ≤ mx := by
  induction as generalizing st with
  | nil => exact h
  | cons a rest ih => exact ih _ (author_step_nodes_le mx pid st a h)

theorem foldl_keyword_step_nodes_le (mx : Nat) (pid : String)
    (ks : List Keyword) (st : CState) (h : st.nodes.length ≤ mx) :
    (ks.foldl (keyword_step mx pid) st).nodes.length ≤ mx := by
  induction ks generalizing st with
  | nil => exact h
  | cons k rest ih => exact ih _ (keyword_step_nodes_le mx pid st k h)

theorem process_paper_nodes_le (mx : Nat) (st : CState) (p : Paper)
    (h : st.nodes.length < mx) :
    (process_paper mx st p).nodes.length ≤ mx := by
  unfold process_paper
  apply foldl_keyword_step_nodes_le
  apply foldl_author_step_nodes_le
  simp only [List.length_append, List.length_cons, List.length_nil]
  omega

theorem paper_loop_nodes_le (mx : Nat) (ps : List Paper) (st : CState)
    (h : st.nodes.length ≤ mx) :
    (paper_loop mx ps st).nodes.length ≤ mx := by
  induction ps generalizing st with
  | nil => exact h
  | cons p rest ih =>
    unfold paper_loop
    split
    · exact h
    · rename_i hlt
      exact ih _ (process_paper_nodes_le mx st p (by omega))

/-- C2: for every data-store content, every filter combination and
every node budget `max_nodes`, the node list returned by
`_collect_graph_data` has length at most `max_nodes`: the paper loop
breaks at the ceiling and author/keyword admissions are guarded by it,
while the citation loop only appends edges. -/
theorem collect_graph_data_nodes_le_max (store : List Paper)
    (papers authors keywords : Option (List String)) (max_nodes : Nat) :
    (collect_graph_data store papers authors keywords max_nodes).1.length ≤
      max_nodes := by
  unfold collect_graph_data
  exact paper_loop_nodes_le _ _ _ (by simp)


/-- C3 counterexample: on the single paper with two authors at node
budget 2, the builder does admit exactly the paper and the first-seen
author, but it emits TWO authored-by edges — one per author — and the
second one dangles (its source `author_a2` is not among the returned
node ids), contradicting "exactly one authored-by edge and zero
dangling author references". -/
theorem collect_two_authors_budget_two_dangling :
    c3_nodes.map GraphNode.id = ["paper_p1", "author_a1"] ∧
    c3_edges.map GraphEdge.source = ["author_a1", "author_a2"] ∧
    ¬ ((c3_edges.filter
        (fun e => e.edge_type = EdgeType.authored_by)).length = 1 ∧
       c3_edges.all (fun e =>
        (c3_nodes.map GraphNode.id).contains e.source &&
        (c3_nodes.map GraphNode.id).contains e.target) = true) := by
  decide

/-- C3 (amended): on the single paper with two authors at node budget
2, the builder admits the paper node and exactly one author node (the
first seen) and emits two authored-by edges, one per author; exactly
one of them has both endpoints among the returned nodes, and the other
is a dangling reference to the unadmitted second author. -/
theorem collect_two_authors_budget_two_amended :
    c3_nodes.map GraphNode.id = ["paper_p1", "author_a1"] ∧
    (c3_edges.filter
      (fun e => e.edge_type = EdgeType.authored_by)).length = 2 ∧
    (c3_edges.filter (fun e =>
      (c3_nodes.map GraphNode.id).contains e.source &&
      (c3_nodes.map GraphNode.id).contains e.target)).length = 1 ∧
    c3_edges.map GraphEdge.source = ["author_a1", "author_a2"] ∧
    "author_a2" ∉ c3_nodes.map GraphNode.id := by
  decide


/-- C1 counterexample: with the one-author one-keyword paper at node
budget 2, `_collect_graph_data` returns an edge list in which not every
edge has both endpoints among the returned node ids — the related-to
edge targets the keyword node that was skipped at the budget ceiling,
so the claimed end-of-build dangling-edge filtering does not exist. -/
theorem collect_returns_dangling_edge :
    ((collect_graph_data [paper_author_keyword] none none none 2).2.all
      (fun e =>
        (((collect_graph_data [paper_author_keyword] none none none
            2).1.map GraphNode.id).contains e.source) &&
        (((collect_graph_data [paper_author_keyword] none none none
            2).1.map GraphNode.id).contains e.target))) = false := by
  decide

theorem dict_lookup_insert {α : Type} (d : List (String × α)) (k : String)
    (v : α) (x : String) :
    dict_lookup (dict_insert d k v) x =
      if k = x then some v else dict_lookup d x := by
  induction d with
  | nil => rfl
  | cons h rest ih =>
    obtain ⟨k', v'⟩ := h
    by_cases hk : k' = k
    · subst hk
      simp only [dict_insert, if_pos rfl]
      by_cases hx : k' = x
      · simp [dict_lookup, hx]
      · simp [dict_lookup, hx]
    · simp only [dict_insert, if_neg hk]
      by_cases hx : k' = x
      · have hkx : ¬ k = x := fun hh => hk (hx.trans hh.symm)
        simp [dict_lookup, hx, hkx]
      · simp [dict_lookup, hx, ih]

theorem foldl_init_lookup_mem (env : LayoutEnv) (nodes : List GraphNode)
    (acc : Positions) (x : String)
    (h : (dict_lookup
      (nodes.foldl (fun d n => dict_insert d n.id (env.init n.id)) acc)
      x).isSome = true) :
    (dict_lookup acc x).isSome = true ∨ x ∈ nodes.map GraphNode.id := by
  induction nodes generalizing acc with
  | nil => exact Or.inl h
  | cons n rest ih =>
    rcases ih _ h with hacc | hmem
    · rw [dict_lookup_insert] at hacc
      by_cases hx : n.id = x
      · exact Or.inr (by simp [hx.symm])
      · rw [if_neg hx] at hacc
        exact Or.inl hacc
    · exact Or.inr (List.mem_cons_of_mem _ hmem)

theorem init_positions_lookup_mem (env : LayoutEnv)
    (nodes : List GraphNode) (x : String)
    (h : (dict_lookup (init_positions env nodes) x).isSome = true) :
    x ∈ nodes.map GraphNode.id := by
  rcases foldl_init_lookup_mem env nodes [] x h with habs | hmem
  · simp [dict_lookup] at habs
  · exact hmem

theorem attraction_pass_ok_endpoints (env : LayoutEnv) (pos : Positions)
    (edges : List GraphEdge) (acc : Forces) (r : Forces)
    (h : attraction_pass env pos edges acc = Except.ok r) :
    ∀ e ∈ edges, (dict_lookup pos e.source).isSome = true ∧
      (dict_lookup pos e.target).isSome = true := by
  induction edges generalizing acc with
  | nil => intro e he; cases he
  | cons e0 rest ih =>
    intro e he
    rw [attraction_pass] at h
    cases hs : dict_lookup pos e0.source with
    | none => rw [hs] at h; cases h
    | some p1 =>
      rw [hs] at h
      cases ht : dict_lookup pos e0.target with
      | none => rw [ht] at h; cases h
      | some p2 =>
        rw [ht] at h
        rcases List.mem_cons.mp he with heq | hmem
        · subst heq
          exact ⟨by rw [hs]; rfl, by rw [ht]; rfl⟩
        · exact ih _ h e hmem

theorem step_fd_ok_endpoints (env : LayoutEnv) (nodes : List GraphNode)
    (edges : List GraphEdge) (st : Positions × ℚ) (st1 : Positions × ℚ)
    (h : step_fd env nodes edges st = Except.ok st1) :
    ∀ e ∈ edges, (dict_lookup st.1 e.source).isSome = true ∧
      (dict_lookup st.1 e.target).isSome = true := by
  unfold step_fd at h
  cases h1 : repulsion_pass env st.1 (pairs_of nodes) [] with
  | error m => rw [h1] at h; cases h
  | ok f1 =>
    rw [h1] at h
    dsimp only at h
    cases h2 : attraction_pass env st.1 edges f1 with
    | error m => rw [h2] at h; cases h
    | ok f2 => exact attraction_pass_ok_endpoints env st.1 edges f1 f2 h2

theorem run_iterations_ok_first (env : LayoutEnv) (nodes : List GraphNode)
    (edges : List GraphEdge) (k : Nat) (st : Positions × ℚ)
    (r : Positions × ℚ)
    (h : run_iterations env nodes edges (k + 1) st = Except.ok r) :
    ∃ st1, step_fd env nodes edges st = Except.ok st1 := by
  rw [run_iterations] at h
  cases h1 : step_fd env nodes edges st with
  | error m => rw [h1] at h; cases h
  | ok st1 => exact ⟨st1, rfl⟩

theorem force_directed_ok_endpoints (env : LayoutEnv)
    (nodes : List GraphNode) (edges : List GraphEdge) (l : Positions)
    (h : force_directed_layout env nodes edges = Except.ok l) :
    ∀ e ∈ edges, e.source ∈ nodes.map GraphNode.id ∧
      e.target ∈ nodes.map GraphNode.id := by
  unfold force_directed_layout at h
  have e100 : (100 : Nat) = 99 + 1 := rfl
  rw [e100] at h
  cases hr : run_iterations env nodes edges (99 + 1)
      (init_positions env nodes, 100) with
  | error m => rw [hr] at h; cases h
  | ok st =>
    obtain ⟨st1, h1⟩ :=
      run_iterations_ok_first env nodes edges 99 _ st hr
    intro e he
    obtain ⟨hsrc, htgt⟩ :=
      step_fd_ok_endpoints env nodes edges _ st1 h1 e he
    exact ⟨init_positions_lookup_mem env nodes _ hsrc,
           init_positions_lookup_mem env nodes _ htgt⟩

theorem contains_of_mem {a : String} {l : List String} (h : a ∈ l) :
    l.contains a = true :=
  List.elem_eq_true_of_mem h

theorem build_eq_match (env : BuildEnv) (uid : String) (store : List Paper)
    (papers authors keywords : Option (List String)) (mx : Nat) :
    build_research_knowledge_graph env uid store papers authors keywords
      mx =
    match generate_3d_layout env.layout
        (collect_graph_data store papers authors keywords mx).1
        (collect_graph_data store papers authors keywords mx).2
        ("force_directed") with
    | Except.error e => Except.error e
    | Except.ok layout =>
      Except.ok (save_knowledge_graph env.sink
        (assemble_graph_data env uid
          (collect_graph_data store papers authors keywords mx).1
          (collect_graph_data store papers authors keywords mx).2
          layout)) := rfl

theorem save_knowledge_graph_nodes (s : SaveOutcome) (gd : GraphData) :
    (save_knowledge_graph s gd).nodes = gd.nodes := by
  cases s <;> rfl

theorem save_knowledge_graph_edges (s : SaveOutcome) (gd : GraphData) :
    (save_knowledge_graph s gd).edges = gd.edges := by
  cases s <;> rfl

theorem assemble_graph_data_edges (env : BuildEnv) (uid : String)
    (nodes : List GraphNode) (edges : List GraphEdge)
    (layout : Positions) :
    (assemble_graph_data env uid nodes edges layout).edges =
      edges.map serialize_edge := rfl

theorem assemble_graph_data_node_ids (env : BuildEnv) (uid : String)
    (nodes : List GraphNode) (edges : List GraphEdge)
    (layout : Positions) :
    (assemble_graph_data env uid nodes edges layout).nodes.map SNode.id =
      nodes.map GraphNode.id := by
  unfold assemble_graph_data
  dsimp only
  rw [List.map_map, List.map_map]
  rfl

/-- C1 (amended): `_collect_graph_data` itself can return dangling
edges when the budget skipped a related node (see the counterexample),
and no dangling-edge filtering exists anywhere; instead, any dangling
edge makes the force-directed layout lookup fail, which aborts the
whole build before assembly.  Consequently, whenever
`build_research_knowledge_graph` does return an assembled graph, every
edge of that graph has both its source id and its target id among the
serialized node ids. -/
theorem build_ok_edges_endpoints_present (env : BuildEnv)
    (user_id : String) (store : List Paper)
    (papers authors keywords : Option (List String)) (max_nodes : Nat)
    (gd : GraphData)
    (h : build_research_knowledge_graph env user_id store papers authors
      keywords max_nodes = Except.ok gd) :
    gd.edges.all (fun e =>
      (gd.nodes.map SNode.id).contains e.source &&
      (gd.nodes.map SNode.id).contains e.target) = true := by
  rw [build_eq_match] at h
  cases hl : generate_3d_layout env.layout
      (collect_graph_data store papers authors keywords max_nodes).1
      (collect_graph_data store papers authors keywords max_nodes).2
      ("force_directed") with
  | error m => rw [hl] at h; cases h
  | ok layout =>
    rw [hl] at h
    dsimp only at h
    injection h with h'
    subst h'
    have hfd : force_directed_layout env.layout
        (collect_graph_data store papers authors keywords max_nodes).1
        (collect_graph_data store papers authors keywords max_nodes).2 =
        Except.ok layout := hl
    have hend := force_directed_ok_endpoints _ _ _ _ hfd
    rw [save_knowledge_graph_edges, save_knowledge_graph_nodes,
        assemble_graph_data_edges, assemble_graph_data_node_ids]
    rw [List.all_eq_true]
    intro se hse
    obtain ⟨e, he, rfl⟩ := List.mem_map.mp hse
    obtain ⟨h1, h2⟩ := hend e he
    have c1 := contains_of_mem h1
    have c2 := contains_of_mem h2
    rw [Bool.and_eq_true]
    exact ⟨c1, c2⟩

/-- C1 witness: the one-author one-keyword store at budget 10 builds
successfully, and the theorem applies to its result. -/
theorem build_ok_edges_endpoints_present_witness :
    (c1_build.toOption.all (fun gd => gd.edges.all (fun e =>
      (gd.nodes.map SNode.id).contains e.source &&
      (gd.nodes.map SNode.id).contains e.target))) = true ∧
    c1_build.isOk = true := by
  constructor
  · cases hb : c1_build with
    | error m => rfl
    | ok gd =>
      exact build_ok_edges_endpoints_present build_env_ok ("user")
        [paper_author_keyword] none none none 10 gd hb
  · rfl

/-- C10: after a successful build, every serialized node carries a
non-null position: the assembly pass sets
`node.position = layout.get(node.id, origin)`, which is always a
present dict, so no serialized `position` is null (and every node's
importance is likewise a plain number, defaulted to 0 when absent from
the scoring map). -/
theorem build_ok_positions_assigned (env : BuildEnv) (user_id : String)
    (store : List Paper) (papers authors keywords : Option (List String))
    (max_nodes : Nat) (gd : GraphData)
    (h : build_research_knowledge_graph env user_id store papers authors
      keywords max_nodes = Except.ok gd) :
    gd.nodes.all (fun n => n.position.isSome) = true := by
  rw [build_eq_match] at h
  cases hl : generate_3d_layout env.layout
      (collect_graph_data store papers authors keywords max_nodes).1
      (collect_graph_data store papers authors keywords max_nodes).2
      ("force_directed") with
  | error m => rw [hl] at h; cases h
  | ok layout =>
    rw [hl] at h
    dsimp only at h
    injection h with h'
    subst h'
    rw [save_knowledge_graph_nodes]
    rw [List.all_eq_true]
    intro sn hsn
    unfold assemble_graph_data at hsn
    dsimp only at hsn
    obtain ⟨n1, hn1, rfl⟩ := List.mem_map.mp hsn
    obtain ⟨n0, hn0, rfl⟩ := List.mem_map.mp hn1
    rfl

/-- C10 witness: the two-author store at budget 10 builds successfully
and the theorem applies to its result. -/
theorem build_ok_positions_assigned_witness :
    (c10_build.toOption.all (fun gd =>
      gd.nodes.all (fun n => n.position.isSome))) = true ∧
    c10_build.isOk = true := by
  constructor
  · cases hb : c10_build with
    | error m => rfl
    | ok gd =>
      exact build_ok_positions_assigned build_env_ok ("u2")
        [paper_two_authors] none none none 10 gd hb
  · rfl

/-- C4 counterexample: a concrete build whose persistence sink fails
still returns plain success — `_save_knowledge_graph` catches the
error, rolls back and returns, so `build_research_knowledge_graph`
reports an ordinary graph (whose id is still the builder-generated
`kg_`-prefixed one) instead of surfacing the failure. -/
theorem build_sink_failure_still_succeeds :
    build_env_fail.sink = SaveOutcome.fail ("db down") ∧
    c4_build_fail.isOk = true ∧
    (c4_build_fail.toOption.all
      (fun gd => gd.id == "kg_carol_20240101")) = true := by
  refine ⟨rfl, rfl, rfl⟩

/-- C4 (amended): a persistence failure is swallowed by
`_save_knowledge_graph` — the graph data is returned unchanged, so the
build reports success and the only caller-visible signal is that the
response keeps the builder-generated id instead of the
database-assigned one (which on success overwrites it). -/
theorem save_knowledge_graph_failure_swallowed (gd : GraphData)
    (m i : String) :
    save_knowledge_graph (SaveOutcome.fail m) gd = gd ∧
    save_knowledge_graph (SaveOutcome.ok i) gd = { gd with id := i } :=
  ⟨rfl, rfl⟩

/-- C7 counterexample: on the empty graph the analyzer's first metric
(`nx.is_connected`) raises, the handler returns only
`{"error": str(e)}`, and the already-computed node and edge counts are
NOT present in the result — partial analysis results do not survive. -/
theorem analyze_empty_graph_error_only :
    analyze_graph_structure eig_trivial [] (FinGraph.mk [] []) =
      AnalyzeResult.errorOnly
        ("Connectivity is undefined for the null graph.") ∧
    has_counts (analyze_graph_structure eig_trivial []
      (FinGraph.mk [] [])) = false :=
  ⟨rfl, rfl⟩

/-- C7 (amended): whenever a metric computation inside
`_analyze_graph_structure` fails, the error is caught and reported as
the structured error-only result — no exception reaches the caller —
but the result then consists of the error field alone: the
already-computed partial values (counts, density, connectivity) are
discarded, not returned. -/
theorem analyze_error_structured (eig : EigFn) (pivots : List String)
    (g : FinGraph) (e : String)
    (h : analyze_core eig pivots g = Except.error e) :
    analyze_graph_structure eig pivots g = AnalyzeResult.errorOnly e ∧
    has_counts (analyze_graph_structure eig pivots g) = false := by
  unfold analyze_graph_structure
  rw [h]
  exact ⟨rfl, rfl⟩

/-- C7 witness: the single-vertex graph makes the betweenness sampling
step fail (100 pivots, 1 node), and the theorem applies. -/
theorem analyze_error_structured_witness :
    analyze_core eig_trivial [] g_single =
      Except.error ("Sample larger than population or is negative") ∧
    (analyze_graph_structure eig_trivial [] g_single =
      AnalyzeResult.errorOnly
        ("Sample larger than population or is negative") ∧
     has_counts (analyze_graph_structure eig_trivial [] g_single) =
       false) :=
  ⟨rfl, analyze_error_structured eig_trivial [] g_single _ rfl⟩

/-- C8: on the three-paper citation chain the structural facts the
claim lists are all true of the graph (3 nodes, 2 edges, connected as
an undirected graph, one component, diameter 2) — but
`_analyze_graph_structure` does not report them: its centrality step
calls `nx.betweenness_centrality(graph, k=100)`, whose 100-element
random sample fails on a 3-node population, so the whole analysis
collapses to the error-only dict. -/
theorem analyze_three_paper_chain :
    c8_graph.verts.length = 3 ∧
    c8_graph.edges.length = 2 ∧
    connected_b c8_graph = true ∧
    components_count c8_graph = 1 ∧
    diameter_nx c8_graph = some 2 ∧
    analyze_graph_structure eig_trivial [] c8_graph =
      AnalyzeResult.errorOnly
        ("Sample larger than population or is negative") := by
  refine ⟨rfl, rfl, rfl, rfl, rfl, rfl⟩

theorem step_fd_nil (env : LayoutEnv) (st : Positions × ℚ) :
    step_fd env [] [] st = Except.ok (st.1, st.2 * (19/20)) := rfl

theorem run_iterations_nil (env : LayoutEnv) (k : Nat)
    (st : Positions × ℚ) (h : st.1 = []) :
    ∃ t, run_iterations env [] [] k st = Except.ok ([], t) := by
  induction k generalizing st with
  | zero =>
    obtain ⟨p, t⟩ := st
    dsimp only at h
    subst h
    exact ⟨t, rfl⟩
  | succ k ih =>
    obtain ⟨p, t⟩ := st
    dsimp only at h
    subst h
    rw [run_iterations, step_fd_nil]
    exact ih ([], t * (19/20)) rfl

theorem force_directed_layout_empty (env : LayoutEnv) :
    force_directed_layout env [] [] = Except.ok [] := by
  obtain ⟨t, ht⟩ := run_iterations_nil env 100 (init_positions env [], 100) rfl
  unfold force_directed_layout
  rw [ht]

/-- C9 (amended): with an empty node list the hierarchical, circular
and spring strategies return the empty mapping for ANY edge list, and
the force-directed strategy — and hence the dispatcher under every
algorithm name, known or unknown — returns the empty mapping when the
edge list is empty too; but force-directed is excluded from the
any-edge-list statement because its attraction pass indexes
`positions[edge.source]` and raises a `KeyError` on a non-empty edge
list over zero nodes (see the counterexample). -/
theorem layouts_empty_nodes (env : LayoutEnv) (edges : List GraphEdge)
    (algo : String) :
    hierarchical_layout env [] edges = [] ∧
    circular_layout env [] edges = [] ∧
    spring_layout env [] edges = [] ∧
    force_directed_layout env [] [] = Except.ok [] ∧
    generate_3d_layout env [] [] algo = Except.ok [] := by
  refine ⟨rfl, rfl, rfl, force_directed_layout_empty env, ?_⟩
  unfold generate_3d_layout
  split
  · rfl
  · rfl
  · rfl
  · exact force_directed_layout_empty env

/-- C9 counterexample: with zero nodes and one edge, the
force-directed strategy (the dispatcher's default and fallback) does
not return an empty mapping — it raises the `KeyError` of
`positions[edge.source]` on the very first iteration. -/
theorem force_directed_empty_nodes_edge_error :
    generate_3d_layout env_zero [] [edge_dangling] ("force_directed") =
      Except.error ("KeyError: author_ghost") ∧
    (generate_3d_layout env_zero [] [edge_dangling]
      ("force_directed")).isOk = false :=
  ⟨rfl, rfl⟩

theorem detect_go_sound (nodes : List GraphNode) (i : Nat)
    (cs : List (List String)) (out : List GraphCluster)
    (h : detect_go nodes i cs = some out) :
    ∀ cl ∈ out, 2 ≤ cl.nodes.length ∧ ∃ c ∈ cs, cl.nodes = c := by
  induction cs generalizing i out with
  | nil =>
    rw [detect_go] at h
    injection h with h'
    subst h'
    intro cl hcl
    cases hcl
  | cons c rest ih =>
    rw [detect_go] at h
    split at h
    · intro cl hcl
      obtain ⟨hlen, c', hc', heq⟩ := ih (i + 1) out h cl hcl
      exact ⟨hlen, c', List.mem_cons_of_mem _ hc', heq⟩
    · rename_i hnot
      cases hm : most_common_type
          ((nodes.filter (fun n => n.id ∈ c)).map
            (fun n => n.node_type)) with
      | none => rw [hm] at h; cases h
      | some mct =>
        rw [hm] at h
        dsimp only at h
        cases hr : detect_go nodes (i + 1) rest with
        | none => rw [hr] at h; cases h
        | some rest0 =>
          rw [hr] at h
          dsimp only at h
          injection h with h'
          subst h'
          intro cl hcl
          rcases List.mem_cons.mp hcl with rfl | hmem
          · refine ⟨?_, c, List.mem_cons_self _ _, rfl⟩
            show 2 ≤ c.length
            omega
          · obtain ⟨hlen, c', hc', heq⟩ := ih (i + 1) rest0 hr cl hmem
            exact ⟨hlen, c', List.mem_cons_of_mem _ hc', heq⟩

/-- C6: every cluster returned by `_detect_research_clusters` has a
member list of size at least 2 (smaller communities are skipped), and —
whenever the community-detection collaborator returned communities
drawn from the graph's node set, as Louvain partitions do — every
member id of every returned cluster exists in the graph's node set. -/
theorem detect_research_clusters_members (communities : List (List String))
    (nodes : List GraphNode) (g : FinGraph)
    (hcov : communities.all
      (fun c => c.all (fun x => g.verts.contains x)) = true) :
    (detect_research_clusters communities nodes).all (fun cl =>
      decide (2 ≤ cl.nodes.length) &&
      cl.nodes.all (fun x => g.verts.contains x)) = true := by
  unfold detect_research_clusters
  cases hd : detect_go nodes 0 communities with
  | none => rfl
  | some out =>
    dsimp only [Option.getD]
    rw [List.all_eq_true]
    intro cl hcl
    obtain ⟨hlen, c, hc, heq⟩ :=
      detect_go_sound nodes 0 communities out hd cl hcl
    rw [Bool.and_eq_true, decide_eq_true_eq]
    refine ⟨hlen, ?_⟩
    rw [heq]
    exact List.all_eq_true.mp hcov c hc

/-- C6 witness: a two-node community over the two-paper graph satisfies
the Louvain coverage hypothesis, and the theorem applies. -/
theorem detect_research_clusters_members_witness :
    (c6_communities.all
      (fun c => c.all (fun x => c6_graph.verts.contains x))) = true ∧
    (detect_research_clusters c6_communities c6_nodes).all (fun cl =>
      decide (2 ≤ cl.nodes.length) &&
      cl.nodes.all (fun x => c6_graph.verts.contains x)) = true :=
  ⟨rfl, detect_research_clusters_members c6_communities c6_nodes c6_graph
    rfl⟩

theorem pair_dep_nonneg (g : FinGraph) (s t v : String) :
    0 ≤ pair_dep g s t v :=
  div_nonneg (Nat.cast_nonneg _) (Nat.cast_nonneg _)

theorem sigma_st_via_le (g : FinGraph) (s t v : String) :
    sigma_st_via g s t v ≤ sigma_st g s t :=
  List.length_filter_le _ _

theorem pair_dep_le_one (g : FinGraph) (s t v : String) :
    pair_dep g s t v ≤ 1 := by
  unfold pair_dep
  rcases Nat.eq_zero_or_pos (sigma_st g s t) with h0 | hpos
  · rw [h0]
    simp
  · rw [div_le_one (by exact_mod_cast hpos)]
    exact_mod_cast sigma_st_via_le g s t v

theorem nat_sum_map_le {α : Type} (l : List α) (f : α → Nat) (b : Nat)
    (h : ∀ a ∈ l, f a ≤ b) : (l.map f).sum ≤ l.length * b := by
  induction l with
  | nil => simp
  | cons a rest ih =>
    simp only [List.map_cons, List.sum_cons, List.length_cons]
    have h1 := h a (List.mem_cons_self a rest)
    have h2 := ih (fun x hx => h x (List.mem_cons_of_mem a hx))
    calc f a + (rest.map f).sum ≤ b + rest.length * b := by omega
      _ = (rest.length + 1) * b := by ring

theorem length_filter_ne_le (l : List String) (a : String) (h : a ∈ l) :
    (l.filter (fun x => x ≠ a)).length ≤ l.length - 1 := by
  induction l with
  | nil => cases h
  | cons b bs ih =>
    by_cases hb : b = a
    · subst hb
      simp only [List.filter_cons]
      rw [if_neg (by simp)]
      have := List.length_filter_le (fun x => decide (x ≠ b)) bs
      simp only [List.length_cons]
      omega
    · have hm : a ∈ bs := by
        rcases List.mem_cons.mp h with h1 | h1
        · exact absurd h1.symm hb
        · exact h1
      simp only [List.filter_cons]
      rw [if_pos (by simp [hb])]
      have h1 := ih hm
      have h2 : 0 < bs.length := List.length_pos_of_mem hm
      simp only [List.length_cons]
      omega

theorem off_diag_pairs_length_le (vs : List String) :
    (off_diag_pairs vs).length ≤ vs.length * (vs.length - 1) := by
  unfold off_diag_pairs
  rw [List.length_flatMap]
  apply nat_sum_map_le
  intro s hs
  simp only [Function.comp, List.length_map]
  exact length_filter_ne_le vs s hs

theorem rescale_unit (n len : ℕ) (raw : ℚ) (h0 : 0 ≤ raw)
    (hle : raw ≤ (len : ℚ)) (hlen : len ≤ (n - 1) * (n - 2)) :
    0 ≤ (if 2 < n then raw / (((n : ℚ) - 1) * ((n : ℚ) - 2)) else raw) ∧
    (if 2 < n then raw / (((n : ℚ) - 1) * ((n : ℚ) - 2)) else raw) ≤ 1 := by
  split_ifs with hn
  · have hc : (2 : ℚ) < (n : ℚ) := by exact_mod_cast hn
    have hpos : 0 < ((n : ℚ) - 1) * ((n : ℚ) - 2) := by nlinarith
    refine ⟨div_nonneg h0 (le_of_lt hpos), ?_⟩
    rw [div_le_one hpos]
    have hcast : (((n - 1) * (n - 2) : ℕ) : ℚ) =
        ((n : ℚ) - 1) * ((n : ℚ) - 2) := by
      rw [Nat.cast_mul, Nat.cast_sub (by omega), Nat.cast_sub (by omega)]
      norm_num
    have hq : (len : ℚ) ≤ (((n - 1) * (n - 2) : ℕ) : ℚ) := by
      exact_mod_cast hlen
    rw [hcast] at hq
    linarith
  · have hz : (n - 1) * (n - 2) = 0 := by
      rw [show n - 2 = 0 by omega]
      simp
    have hlen0 : len = 0 := by omega
    subst hlen0
    norm_num at hle
    exact ⟨h0, le_trans hle zero_le_one⟩

theorem betweenness_exact_mem_unit (g : FinGraph) (v : String)
    (hv : v ∈ g.verts) :
    0 ≤ betweenness_exact g v ∧ betweenness_exact g v ≤ 1 := by
  unfold betweenness_exact
  refine rescale_unit g.verts.length
    (off_diag_pairs (g.verts.filter (fun u => u ≠ v))).length _ ?_ ?_ ?_
  · exact List.sum_nonneg (fun q hq => by
      obtain ⟨p, hp, rfl⟩ := List.mem_map.mp hq
      exact pair_dep_nonneg g p.1 p.2 v)
  · have h1 := List.sum_le_card_nsmul
      ((off_diag_pairs (g.verts.filter (fun u => u ≠ v))).map
        (fun p => pair_dep g p.1 p.2 v)) 1
      (fun q hq => by
        obtain ⟨p, hp, rfl⟩ := List.mem_map.mp hq
        exact pair_dep_le_one g p.1 p.2 v)
    rw [List.length_map] at h1
    simpa using h1
  · have h1 := off_diag_pairs_length_le (g.verts.filter (fun u => u ≠ v))
    have h2 := length_filter_ne_le g.verts v hv
    exact le_trans h1 (Nat.mul_le_mul h2 (by omega))

theorem length_filter_mono_pred {α : Type} (l : List α) (p q : α → Bool)
    (h : ∀ a, p a = true → q a = true) :
    (l.filter p).length ≤ (l.filter q).length := by
  induction l with
  | nil => simp
  | cons a rest ih =>
    simp only [List.filter_cons]
    by_cases hp : p a = true
    · rw [if_pos hp, if_pos (h a hp)]
      simpa using ih
    · rw [if_neg hp]
      by_cases hq : q a = true
      · rw [if_pos hq]
        simp only [List.length_cons]
        omega
      · rw [if_neg hq]
        exact ih

theorem adjB_self_false (g : FinGraph) (hl : loop_free g = true)
    (v : String) : g.adjB v v = false := by
  unfold FinGraph.adjB
  rw [List.any_eq_false]
  intro e he
  have h2 : e.1 ≠ e.2 := by
    have := List.all_eq_true.mp hl e he
    simpa using this
  simp only [decide_eq_true_eq]
  rintro (⟨ha, hb⟩ | ⟨ha, hb⟩) <;> exact h2 (ha.trans hb.symm)

theorem degree_nx_le (g : FinGraph) (v : String) (hv : v ∈ g.verts)
    (hl : loop_free g = true) : degree_nx g v ≤ g.verts.length - 1 := by
  unfold degree_nx
  rw [adjB_self_false g hl v]
  simp only [Bool.false_eq_true, if_false, Nat.add_zero]
  have hmono := length_filter_mono_pred g.verts
    (fun u => decide (u ≠ v ∧ g.adjB v u = true))
    (fun u => decide (u ≠ v))
    (by
      intro a ha
      simp only [decide_eq_true_eq] at ha ⊢
      exact ha.1)
  exact le_trans hmono (length_filter_ne_le g.verts v hv)

theorem degree_centrality_mem_unit (g : FinGraph) (v : String)
    (hv : v ∈ g.verts) (hl : loop_free g = true) :
    0 ≤ degree_centrality g v ∧ degree_centrality g v ≤ 1 := by
  unfold degree_centrality
  split_ifs with h1
  · norm_num
  · push_neg at h1
    have hpos : (0 : ℚ) < (g.verts.length : ℚ) - 1 := by
      have : (2 : ℚ) ≤ (g.verts.length : ℚ) := by exact_mod_cast h1
      linarith
    constructor
    · exact div_nonneg (Nat.cast_nonneg _) (le_of_lt hpos)
    · rw [div_le_one hpos]
      have hd := degree_nx_le g v hv hl
      have hcast : ((g.verts.length - 1 : ℕ) : ℚ) =
          (g.verts.length : ℚ) - 1 := Nat.cast_sub (by omega)
      rw [← hcast]
      exact_mod_cast hd

/-- C5 (amended): for every loop-free non-empty graph of at most 500
nodes (the exact-betweenness branch), `_calculate_node_importance`
assigns every node the score
`0.6 * degree_centrality + 0.4 * betweenness_centrality` and every
returned score lies in `[0, 1]`.  Self-loops break the bound because
`nx.Graph` counts them twice in the degree, making the degree
centrality exceed 1 (see the counterexample). -/
theorem calculate_node_importance_formula_bounds (g : FinGraph)
    (pivots : List String) (hl : loop_free g = true)
    (hne : 1 ≤ g.verts.length) (hub : g.verts.length ≤ 500) :
    (calculate_node_importance g pivots).all (fun p =>
      decide (0 ≤ p.2 ∧ p.2 ≤ 1 ∧
        p.2 = 3/5 * degree_centrality g p.1 +
          2/5 * betweenness_exact g p.1)) = true := by
  rw [List.all_eq_true]
  intro p hp
  unfold calculate_node_importance at hp
  obtain ⟨v, hv, rfl⟩ := List.mem_map.mp hp
  rw [decide_eq_true_eq]
  dsimp only
  have hnb : ¬ 500 < g.verts.length := by omega
  rw [if_neg hnb]
  obtain ⟨hd0, hd1⟩ := degree_centrality_mem_unit g v hv hl
  obtain ⟨hb0, hb1⟩ := betweenness_exact_mem_unit g v hv
  refine ⟨?_, ?_, rfl⟩
  · have t1 : (0 : ℚ) ≤ 3/5 * degree_centrality g v := by
      apply mul_nonneg (by norm_num) hd0
    have t2 : (0 : ℚ) ≤ 2/5 * betweenness_exact g v := by
      apply mul_nonneg (by norm_num) hb0
    linarith
  · nlinarith [hd1, hb1, hd0, hb0]

/-- C5 witness: the two-paper path graph is loop-free with 2 ≤ 500
nodes, and the theorem applies to it. -/
theorem calculate_node_importance_formula_bounds_witness :
    loop_free c6_graph = true ∧
    (calculate_node_importance c6_graph []).all (fun p =>
      decide (0 ≤ p.2 ∧ p.2 ≤ 1 ∧
        p.2 = 3/5 * degree_centrality c6_graph p.1 +
          2/5 * betweenness_exact c6_graph p.1)) = true :=
  ⟨rfl, calculate_node_importance_formula_bounds c6_graph [] rfl
    (by decide) (by decide)⟩

/-- C5 counterexample: on the graph with the self-citation loop at
`paper_1` (two nodes, an authorship edge plus the self-loop), the
importance score of `paper_1` is 9/5: `nx.Graph` reports degree 3 for
it (one neighbour plus two for the self-loop), so its degree
centrality is 3 and `0.6 * 3 + 0.4 * 0 = 1.8 > 1`, refuting the claim
that every returned score lies in `[0, 1]` for every non-empty
graph. -/
theorem importance_self_loop_exceeds_one :
    dict_lookup (calculate_node_importance g_selfloop []) "paper_1" =
      some (9/5) ∧
    ¬ ((9 : ℚ)/5 ≤ 1) ∧
    g_selfloop.verts.length = 2 := by
  refine ⟨?_, by norm_num, rfl⟩
  have h1 : dict_lookup (calculate_node_importance g_selfloop [])
      "paper_1" =
      some (3/5 * degree_centrality g_selfloop ("paper_1") +
        2/5 * betweenness_exact g_selfloop ("paper_1")) := rfl
  have h2 : degree_centrality g_selfloop ("paper_1") = 3 := by
    unfold degree_centrality
    rw [if_neg (by decide)]
    rw [show degree_nx g_selfloop ("paper_1") = 3 from rfl,
        show g_selfloop.verts.length = 2 from rfl]
    norm_num
  have h3 : betweenness_exact g_selfloop ("paper_1") = 0 := by
    unfold betweenness_exact
    rw [if_neg (by decide)]
    rw [show off_diag_pairs
      (g_selfloop.verts.filter (fun u => u ≠ "paper_1")) = [] from rfl]
    rfl
  rw [h1, h2, h3]
  norm_num
